import Mathlib

/-!
Shallow embedding of the weather-skill example script
(src/examples/skills/skills/weather-skill/scripts/get_humidity.py).

The script defines one function, get_humidity, that prints a notice line
and returns a hard-coded string, and a main block that parses a single
optional command-line flag (--location, default "Mountain View") with
Python argparse and prints the result of get_humidity on the resolved
location.

We embed get_humidity as a pure function from the location string to the
pair (printed stdout lines, return value).  The argparse behaviour for
this parser configuration (one string option --location plus the
automatic help option, no positionals, allow_abbrev left at its
default True) is embedded as an executable parser over the argument
vector, following the stdlib argparse semantics of CPython 3.11 and 3.12
(including the negative-number matcher, the rule that a token containing
a space is never an unknown option, the ambiguous-option pre-scan, and
the handling of the bare "--" separator, whose leftovers are reported as
unrecognized including the separator itself), and the main block as a
function from the argument vector to a run outcome (stdout lines, stderr
lines, exit code).
-/

/-- Embedding of the Python function get_humidity: it prints one line,
"Fetching live humidity for {location}...", and returns the literal
string "45% (Simulated)".  The first component collects the lines the
call writes to standard output, the second is the return value. -/
def get_humidity (location : String) : List String × String :=
  (["Fetching live humidity for " ++ location ++ "..."], "45% (Simulated)")

/-- Two consecutive calls of get_humidity on the same location, modelling
a repeated invocation; used to state idempotence. -/
def get_humidity_twice (location : String) : (List String × String) × (List String × String) :=
  (get_humidity location, get_humidity location)

/-- Splits a character list at the first equals sign, as argparse does for
tokens of the form --name=value.  Returns the part before the sign and,
when a sign is present, the part after it. -/
def splitAtEq : List Char → List Char × Option (List Char)
  | [] => ([], none)
  | c :: cs =>
    if c == '=' then ([], some cs)
    else
      let r := splitAtEq cs
      (c :: r.1, r.2)

/-- Boolean list-prefix test used for argparse long-option abbreviation
matching. -/
def isPrefixOfL : List Char → List Char → Bool
  | [], _ => true
  | _ :: _, [] => false
  | a :: as, b :: bs => a == b && isPrefixOfL as bs

/-- At least one character and all of them digits, the \d+ part of the
argparse negative-number matcher. -/
def isDigits1 (l : List Char) : Bool :=
  !l.isEmpty && l.all Char.isDigit

/-- Zero or more digits, then a dot, then one or more digits: the
\d*\.\d+ part of the argparse negative-number matcher. -/
def isFracTail : List Char → Bool
  | [] => false
  | c :: cs =>
    if c == '.' then !cs.isEmpty && cs.all Char.isDigit
    else c.isDigit && isFracTail cs

/-- Embedding of the argparse negative-number matcher, the regular
expression dash digits+, or dash digits* dot digits+ (CPython 3.13).
Since this parser has no option strings that look like negative numbers,
matching tokens are not treated as options. -/
def isNegNumber : List Char → Bool
  | '-' :: rest => isDigits1 rest || isFracTail rest
  | _ => false

/-- How the parser classifies a single command-line token for this parser
configuration: the bare "--" separator, the short help flag "-h", a long
option matching --location or -\x2dhelp (possibly abbreviated, possibly
carrying an =value; a token -h with trailing characters also
carries an explicit value), an ambiguous long option (an empty abbreviation
before an = sign matches every defined option), or a plain token (a
candidate positional or option value). -/
inductive TokClass where
  | sep : TokClass
  | shortHelp : TokClass
  | locFlag : Option String → TokClass
  | helpFlag : Option String → TokClass
  | ambig : TokClass
  | plain : TokClass
deriving DecidableEq, Repr

/-- Token classification for this parser: long tokens are matched against
the two long option strings --location and -\x2dhelp by unambiguous
abbreviation (argparse allow_abbrev is True by default, and no nonempty
string is simultaneously an abbreviation of "location" and of "help"); an
empty abbreviation before an = sign matches both options at once, which
argparse reports as an ambiguous option; a short-option token -h with
trailing characters carries them (minus a leading = sign) as an explicit
argument for the help option. -/
def classifyTok (t : String) : TokClass :=
  match t.data with
  | ['-', '-'] => TokClass.sep
  | ['-', 'h'] => TokClass.shortHelp
  | '-' :: '-' :: body =>
    let p := splitAtEq body
    if !p.1.isEmpty && isPrefixOfL p.1 "location".data then
      TokClass.locFlag (p.2.map String.mk)
    else if !p.1.isEmpty && isPrefixOfL p.1 "help".data then
      TokClass.helpFlag (p.2.map String.mk)
    else if p.1.isEmpty && p.2.isSome then TokClass.ambig
    else TokClass.plain
  | '-' :: 'h' :: c :: cs =>
    TokClass.helpFlag (some (String.mk (if c == '=' then cs else c :: cs)))
  | _ => TokClass.plain

/-- A token that argparse treats as an option string rather than as a
value, following the order of checks in its parse-optional routine
(CPython 3.13).  A token that matches a defined option exactly, by
unambiguous abbreviation, or before an = sign is an option string
unconditionally (so is the bare "--" separator for consumption
purposes).  Any other token is an option string when it starts with a
dash, has at least one more character, does not match the
negative-number pattern, and does not contain a space: a token
containing a space is always a positional or a value. -/
def optionLike (t : String) : Bool :=
  match classifyTok t with
  | TokClass.plain =>
    match t.data with
    | '-' :: _ :: _ => !isNegNumber t.data && !t.data.contains ' '
    | _ => false
  | _ => true

/-- Result of argparse parse_args for this parser: a resolved location,
an immediate help exit, or a parse error with its message. -/
inductive ParseResult where
  | ok : String → ParseResult
  | help : ParseResult
  | err : String → ParseResult
deriving DecidableEq, Repr

/-- Joins leftover tokens with single spaces for the unrecognized
arguments error message. -/
def joinTokens : List String → String
  | [] => ""
  | [t] => t
  | t :: ts => t ++ " " ++ joinTokens ts

/-- The error message argparse produces for an ambiguous option token,
listing the option strings it could match in definition order. -/
def ambigMsg (t : String) : String :=
  "ambiguous option: " ++ t ++ " could match --help, --location"

/-- The argparse parsing loop for this parser configuration.  Arguments
are scanned left to right, one token per step; pending records that the
previous token was a location flag still waiting for its value, loc holds
the current value of the location option (initially the default), and
extras collects tokens recognized neither as options nor as option
values.  While a value is pending, an option-like token is an error and
any other token is stored as the location.  Otherwise a help flag exits
immediately; a help flag with an explicit argument is an error, with the
argument quoted in the message; a location flag takes its =value or sets
pending; "--" and everything after it are positionals, which this parser
does not define, so they always join the unrecognized arguments (CPython
3.11 and 3.12 behaviour: the separator itself is reported too); at the
end, a still-pending value is an error, and leftover extras are reported
as unrecognized arguments. -/
def parseArgsLoop : List String → Bool → String → List String → ParseResult
  | [], pending, loc, extras =>
    if pending then ParseResult.err "argument --location: expected one argument"
    else if extras.isEmpty then ParseResult.ok loc
    else ParseResult.err ("unrecognized arguments: " ++ joinTokens extras)
  | t :: rest, pending, loc, extras =>
    if pending then
      if optionLike t then ParseResult.err "argument --location: expected one argument"
      else parseArgsLoop rest false t extras
    else
      match classifyTok t with
      | TokClass.sep =>
        ParseResult.err ("unrecognized arguments: " ++ joinTokens (extras ++ t :: rest))
      | TokClass.shortHelp => ParseResult.help
      | TokClass.locFlag (some v) => parseArgsLoop rest false v extras
      | TokClass.locFlag none => parseArgsLoop rest true loc extras
      | TokClass.helpFlag (some v) =>
        ParseResult.err
          ("argument -h/--help: ignored explicit argument \x27" ++ v ++ "\x27")
      | TokClass.helpFlag none => ParseResult.help
      | TokClass.ambig => ParseResult.err (ambigMsg t)
      | TokClass.plain => parseArgsLoop rest false loc (extras ++ [t])

/-- The default value of the --location option. -/
def defaultLocation : String := "Mountain View"

/-- Embedding of parser.parse_args on a given argument vector (the
command-line arguments after the program name).  argparse first scans
every token up to the "--" separator to decide which ones are option
strings; an ambiguous option aborts already during this scan, before any
option (including help) is consumed, so it takes precedence over every
other outcome.  Otherwise the tokens are consumed left to right by the
parsing loop. -/
def parseArgs (argv : List String) : ParseResult :=
  match (argv.takeWhile fun t => !(classifyTok t == TokClass.sep)).find?
      (fun t => classifyTok t == TokClass.ambig) with
  | some t => ParseResult.err (ambigMsg t)
  | none => parseArgsLoop argv false defaultLocation []

/-- The usage line argparse generates for this parser. -/
def usageLine : String := "usage: get_humidity.py [-h] [--location LOCATION]"

/-- The help text printed on a help flag. -/
def helpLines : List String :=
  [usageLine, "",
   "options:",
   "  -h, --help           show this help message and exit",
   "  --location LOCATION"]

/-- Observable outcome of one run of the script: the lines written to
standard output, the lines written to standard error, and the process
exit code. -/
structure RunOutcome where
  stdoutLines : List String
  stderrLines : List String
  exitCode : Nat
deriving DecidableEq, Repr

/-- Embedding of the __main__ block: parse the arguments; on success call
get_humidity on the resolved location and print its return value (exit
0); on a help flag print the help text and exit 0; on a parse error print
the usage line and the error message on standard error and exit 2, as
argparse does. -/
def runMain (argv : List String) : RunOutcome :=
  match parseArgs argv with
  | ParseResult.ok loc =>
    let r := get_humidity loc
    { stdoutLines := r.1 ++ [r.2], stderrLines := [], exitCode := 0 }
  | ParseResult.help =>
    { stdoutLines := helpLines, stderrLines := [], exitCode := 0 }
  | ParseResult.err m =>
    { stdoutLines := [],
      stderrLines := [usageLine, "get_humidity.py: error: " ++ m],
      exitCode := 2 }

/-- True when the token is one of the help option forms, which make the
parser print the help text and exit immediately. -/
def isHelpTok (t : String) : Bool :=
  match classifyTok t with
  | TokClass.shortHelp => true
  | TokClass.helpFlag _ => true
  | _ => false

/-- True when the token is a location flag without an attached =value,
that is, a token that consumes the following token as its value. -/
def isLocFlagNoVal (t : String) : Bool :=
  match classifyTok t with
  | TokClass.locFlag none => true
  | _ => false

example : parseArgs [] = ParseResult.ok "Mountain View" := by decide

example : parseArgs ["--location", "Tokyo"] = ParseResult.ok "Tokyo" := by decide

example : parseArgs ["--location=Tokyo"] = ParseResult.ok "Tokyo" := by decide

example : parseArgs ["--loc", "Tokyo"] = ParseResult.ok "Tokyo" := by decide

example : parseArgs ["--l", "Tokyo"] = ParseResult.ok "Tokyo" := by decide

example : parseArgs ["--location"] =
    ParseResult.err "argument --location: expected one argument" := by decide

example : parseArgs ["Tokyo"] =
    ParseResult.err "unrecognized arguments: Tokyo" := by decide

example : parseArgs ["--bogus"] =
    ParseResult.err "unrecognized arguments: --bogus" := by decide

example : parseArgs ["-h"] = ParseResult.help := by decide

example : parseArgs ["Tokyo", "-h"] = ParseResult.help := by decide

example : parseArgs ["--location", "Paris", "--location", "Tokyo"] =
    ParseResult.ok "Tokyo" := by decide

example : runMain [] =
    { stdoutLines := ["Fetching live humidity for Mountain View...", "45% (Simulated)"],
      stderrLines := [], exitCode := 0 } := by decide

example : parseArgs ["--location", "-x y"] = ParseResult.ok "-x y" := by decide

example : runMain ["--location", "-x y"] =
    { stdoutLines := ["Fetching live humidity for -x y...", "45% (Simulated)"],
      stderrLines := [], exitCode := 0 } := by decide

example : parseArgs ["--location", "-5"] = ParseResult.ok "-5" := by decide

example : parseArgs ["--location", "-.5"] = ParseResult.ok "-.5" := by decide

example : parseArgs ["--location", "-5."] =
    ParseResult.err "argument --location: expected one argument" := by decide

example : parseArgs ["--location", "-1.2.3"] =
    ParseResult.err "argument --location: expected one argument" := by decide

example : parseArgs ["--location", "-..5"] =
    ParseResult.err "argument --location: expected one argument" := by decide

example : parseArgs ["--location", "--location=a b"] =
    ParseResult.err "argument --location: expected one argument" := by decide

example : parseArgs ["--"] =
    ParseResult.err "unrecognized arguments: --" := by decide

example : parseArgs ["--location", "Tokyo", "--"] =
    ParseResult.err "unrecognized arguments: --" := by decide

example : parseArgs ["X", "--", "Y"] =
    ParseResult.err "unrecognized arguments: X -- Y" := by decide

example : parseArgs ["Tokyo", "Osaka"] =
    ParseResult.err "unrecognized arguments: Tokyo Osaka" := by decide

example : parseArgs ["--=x"] =
    ParseResult.err "ambiguous option: --=x could match --help, --location" := by decide

example : parseArgs ["-h", "--=x"] =
    ParseResult.err "ambiguous option: --=x could match --help, --location" := by decide

example : parseArgs ["--", "--=x"] =
    ParseResult.err "unrecognized arguments: -- --=x" := by decide

example : parseArgs ["-hx"] =
    ParseResult.err "argument -h/--help: ignored explicit argument \x27x\x27" := by decide

example : parseArgs ["--help=x"] =
    ParseResult.err "argument -h/--help: ignored explicit argument \x27x\x27" := by decide

example : parseArgs ["--he="] =
    ParseResult.err "argument -h/--help: ignored explicit argument \x27\x27" := by decide

/-- Claim C1: for every input string L, including the empty string and
unicode text, get_humidity L returns exactly the literal string
"45% (Simulated)"; the return value is constant regardless of the
input. -/
theorem claim_C1_constant_return (L : String) :
    (get_humidity L).2 = "45% (Simulated)" := rfl

/-- Claim C2: for every input string L, get_humidity L writes exactly one
line to standard output, namely "Fetching live humidity for " followed by
L followed by "...". -/
theorem claim_C2_notice_line (L : String) :
    (get_humidity L).1 = ["Fetching live humidity for " ++ L ++ "..."] ∧
    (get_humidity L).1.length = 1 :=
  ⟨rfl, rfl⟩

/-- Claim C3: invoked with no --location flag, the program resolves the
default location "Mountain View" and its standard output is the notice
line "Fetching live humidity for Mountain View..." followed by
"45% (Simulated)". -/
theorem claim_C3_default_location :
    runMain [] =
      { stdoutLines := ["Fetching live humidity for Mountain View...", "45% (Simulated)"],
        stderrLines := [], exitCode := 0 } := by
  decide

/-- Claim C4: get_humidity cannot fail: for every input string, including
the empty string, it performs no validation and completes normally; its
embedding is a total function whose result on every input is the notice
line paired with the constant return value, with no error branch in its
codomain. -/
theorem claim_C4_total_no_error (L : String) :
    get_humidity L =
      (["Fetching live humidity for " ++ L ++ "..."], "45% (Simulated)") := rfl

/-- A token that is not option-like is classified plain: every other
classification marks an option string (or the separator), all of which
are option-like. -/
theorem classify_plain_of_value (v : String) (hv : optionLike v = false) :
    classifyTok v = TokClass.plain := by
  cases hcv : classifyTok v
  case plain => rfl
  all_goals simp [optionLike, hcv] at hv

/-- When no token of the argument vector is ambiguous, parse_args is the
parsing loop from the initial state: the ambiguity pre-scan finds
nothing. -/
theorem parseArgs_no_ambig (argv : List String)
    (h : ∀ t ∈ argv, classifyTok t ≠ TokClass.ambig) :
    parseArgs argv = parseArgsLoop argv false defaultLocation [] := by
  have hf : (argv.takeWhile fun t => !(classifyTok t == TokClass.sep)).find?
      (fun t => classifyTok t == TokClass.ambig) = none := by
    rw [List.find?_eq_none]
    intro x hx
    have hxa : x ∈ argv := List.takeWhile_subset _ hx
    simp only [beq_iff_eq]
    exact h x hxa
  simp [parseArgs, hf]

/-- A token classified as a location flag without an attached =value,
followed by a non-option-like value token, stores that value and parsing
continues on the remaining tokens. -/
theorem parse_locflag_step (p v : String) (rest : List String)
    (loc : String) (extras : List String)
    (hp : classifyTok p = TokClass.locFlag none)
    (hv : optionLike v = false) :
    parseArgsLoop (p :: v :: rest) false loc extras = parseArgsLoop rest false v extras := by
  simp [parseArgsLoop, hp, hv]

/-- Parsing a location flag token (full spelling or abbreviation)
followed by a non-option-like value yields that value. -/
theorem parse_flag_value (p v : String)
    (hp : classifyTok p = TokClass.locFlag none)
    (hv : optionLike v = false) :
    parseArgs [p, v] = ParseResult.ok v := by
  have hvp := classify_plain_of_value v hv
  rw [parseArgs_no_ambig]
  · rw [parse_locflag_step p v [] defaultLocation [] hp hv]
    rfl
  · intro t ht
    simp only [List.mem_cons, List.not_mem_nil, or_false] at ht
    rcases ht with rfl | rfl
    · simp [hp]
    · simp [hvp]

/-- Claim C8: when the --location flag is supplied more than once,
argument parsing succeeds and the last supplied value is the one used as
the location in the notice line. -/
theorem claim_C8_last_value_wins (a b : String)
    (ha : optionLike a = false) (hb : optionLike b = false) :
    parseArgs ["--location", a, "--location", b] = ParseResult.ok b ∧
    (runMain ["--location", a, "--location", b]).stdoutLines =
      ["Fetching live humidity for " ++ b ++ "...", "45% (Simulated)"] := by
  have hcl : classifyTok "--location" = TokClass.locFlag none := by decide
  have hpa := classify_plain_of_value a ha
  have hpb := classify_plain_of_value b hb
  have hp : parseArgs ["--location", a, "--location", b] = ParseResult.ok b := by
    rw [parseArgs_no_ambig]
    · rw [parse_locflag_step "--location" a ["--location", b] defaultLocation [] hcl ha,
        parse_locflag_step "--location" b [] a [] hcl hb]
      rfl
    · intro t ht
      simp only [List.mem_cons, List.not_mem_nil, or_false] at ht
      rcases ht with rfl | rfl | rfl | rfl
      · simp [hcl]
      · simp [hpa]
      · simp [hcl]
      · simp [hpb]
  exact ⟨hp, by simp [runMain, hp, get_humidity]⟩

/-- Witness for claim C8 at the concrete invocation giving Paris then
Tokyo: the second value wins. -/
theorem claim_C8_last_value_wins_witness :
    parseArgs ["--location", "Paris", "--location", "Tokyo"] = ParseResult.ok "Tokyo" ∧
    (runMain ["--location", "Paris", "--location", "Tokyo"]).stdoutLines =
      ["Fetching live humidity for Tokyo...", "45% (Simulated)"] :=
  claim_C8_last_value_wins "Paris" "Tokyo" (by decide) (by decide)

/-- Claim C10: the parser accepts unambiguous abbreviations of the
--location flag: every proper abbreviation from "--l" up to "--locatio",
given a value, parses successfully and the run behaves identically to
spelling out --location in full. -/
theorem claim_C10_abbreviations (v : String) (hv : optionLike v = false) :
    runMain ["--l", v] = runMain ["--location", v] ∧
    runMain ["--lo", v] = runMain ["--location", v] ∧
    runMain ["--loc", v] = runMain ["--location", v] ∧
    runMain ["--loca", v] = runMain ["--location", v] ∧
    runMain ["--locat", v] = runMain ["--location", v] ∧
    runMain ["--locati", v] = runMain ["--location", v] ∧
    runMain ["--locatio", v] = runMain ["--location", v] ∧
    runMain ["--location", v] =
      { stdoutLines := ["Fetching live humidity for " ++ v ++ "...", "45% (Simulated)"],
        stderrLines := [], exitCode := 0 } := by
  have hfull := parse_flag_value "--location" v (by decide) hv
  refine ⟨?_, ?_, ?_, ?_, ?_, ?_, ?_, ?_⟩
  · rw [runMain, runMain, hfull, parse_flag_value "--l" v (by decide) hv]
  · rw [runMain, runMain, hfull, parse_flag_value "--lo" v (by decide) hv]
  · rw [runMain, runMain, hfull, parse_flag_value "--loc" v (by decide) hv]
  · rw [runMain, runMain, hfull, parse_flag_value "--loca" v (by decide) hv]
  · rw [runMain, runMain, hfull, parse_flag_value "--locat" v (by decide) hv]
  · rw [runMain, runMain, hfull, parse_flag_value "--locati" v (by decide) hv]
  · rw [runMain, runMain, hfull, parse_flag_value "--locatio" v (by decide) hv]
  · simp [runMain, hfull, get_humidity]

/-- Witness for claim C10 at the concrete value Tokyo. -/
theorem claim_C10_abbreviations_witness :
    runMain ["--l", "Tokyo"] = runMain ["--location", "Tokyo"] ∧
    runMain ["--lo", "Tokyo"] = runMain ["--location", "Tokyo"] ∧
    runMain ["--loc", "Tokyo"] = runMain ["--location", "Tokyo"] ∧
    runMain ["--loca", "Tokyo"] = runMain ["--location", "Tokyo"] ∧
    runMain ["--locat", "Tokyo"] = runMain ["--location", "Tokyo"] ∧
    runMain ["--locati", "Tokyo"] = runMain ["--location", "Tokyo"] ∧
    runMain ["--locatio", "Tokyo"] = runMain ["--location", "Tokyo"] ∧
    runMain ["--location", "Tokyo"] =
      { stdoutLines := ["Fetching live humidity for Tokyo...", "45% (Simulated)"],
        stderrLines := [], exitCode := 0 } :=
  claim_C10_abbreviations "Tokyo" (by decide)

/-- Claim C7: determinism and idempotence: two calls of get_humidity on
the same location produce identical outputs, the same printed line and
the same return value, with no hidden state affecting either run. -/
theorem claim_C7_deterministic (L : String) :
    (get_humidity_twice L).1 = (get_humidity_twice L).2 ∧
    (get_humidity_twice L).1 =
      (["Fetching live humidity for " ++ L ++ "..."], "45% (Simulated)") :=
  ⟨rfl, rfl⟩

/-- If the remaining arguments contain no help flag and the extras
accumulator is already nonempty, the parsing loop ends in an error
whatever the rest of the state is: the leftover tokens are reported as
unrecognized arguments (or a pending location value runs out first). -/
theorem loop_err_of_extras (args : List String) :
    ∀ (pending : Bool) (loc : String) (extras : List String),
      (∀ t ∈ args, isHelpTok t = false) → extras ≠ [] →
      ∃ m, parseArgsLoop args pending loc extras = ParseResult.err m := by
  induction args with
  | nil =>
    intro pending loc extras hnh hex
    cases pending with
    | true => exact ⟨"argument --location: expected one argument", by simp [parseArgsLoop]⟩
    | false =>
      cases extras with
      | nil => exact absurd rfl hex
      | cons e es =>
        exact ⟨"unrecognized arguments: " ++ joinTokens (e :: es), by simp [parseArgsLoop]⟩
  | cons t rest ih =>
    intro pending loc extras hnh hex
    have hnhr : ∀ u ∈ rest, isHelpTok u = false :=
      fun u hu => hnh u (List.mem_cons_of_mem t hu)
    cases pending with
    | true =>
      cases hov : optionLike t with
      | true =>
        exact ⟨"argument --location: expected one argument", by simp [parseArgsLoop, hov]⟩
      | false =>
        obtain ⟨m, hm⟩ := ih false t extras hnhr hex
        exact ⟨m, by simp [parseArgsLoop, hov, hm]⟩
    | false =>
      cases hcl : classifyTok t with
      | sep =>
        exact ⟨"unrecognized arguments: " ++ joinTokens (extras ++ t :: rest),
          by simp [parseArgsLoop, hcl]⟩
      | shortHelp =>
        have h1 : isHelpTok t = false := hnh t (by simp)
        simp [isHelpTok, hcl] at h1
      | locFlag val =>
        cases val with
        | some s =>
          obtain ⟨m, hm⟩ := ih false s extras hnhr hex
          exact ⟨m, by simp [parseArgsLoop, hcl, hm]⟩
        | none =>
          obtain ⟨m, hm⟩ := ih true loc extras hnhr hex
          exact ⟨m, by simp [parseArgsLoop, hcl, hm]⟩
      | helpFlag val =>
        cases val with
        | some s =>
          exact ⟨"argument -h/--help: ignored explicit argument \x27" ++ s ++ "\x27",
            by simp [parseArgsLoop, hcl]⟩
        | none =>
          have h1 : isHelpTok t = false := hnh t (by simp)
          simp [isHelpTok, hcl] at h1
      | ambig =>
        exact ⟨ambigMsg t, by simp [parseArgsLoop, hcl]⟩
      | plain =>
        obtain ⟨m, hm⟩ := ih false loc (extras ++ [t]) hnhr (by simp)
        exact ⟨m, by simp [parseArgsLoop, hcl, hm]⟩

/-- If the arguments contain no help flag, and some argument is a plain
token that is not consumed as the value of a location flag (it is not
immediately preceded by a valueless location flag, and no value is
pending for it at the start), then parsing ends in an error: the parser
defines no positional arguments. -/
theorem loop_err_of_bare (args : List String) :
    ∀ (pending : Bool) (loc : String) (extras : List String),
      (∀ t ∈ args, isHelpTok t = false) →
      ∀ (i : Nat) (hi : i < args.length),
        classifyTok args[i] = TokClass.plain →
        (i = 0 → pending = false) →
        (∀ (j : Nat) (hj : j < args.length), j + 1 = i → isLocFlagNoVal args[j] = false) →
      ∃ m, parseArgsLoop args pending loc extras = ParseResult.err m := by
  induction args with
  | nil =>
    intro pending loc extras hnh i hi hplain hpend hpred
    exact absurd hi (by simp)
  | cons t rest ih =>
    intro pending loc extras hnh i hi hplain hpend hpred
    have hnhr : ∀ u ∈ rest, isHelpTok u = false :=
      fun u hu => hnh u (List.mem_cons_of_mem t hu)
    cases pending with
    | true =>
      cases i with
      | zero => exact Bool.noConfusion (hpend rfl)
      | succ k =>
        have hk : k < rest.length := by
          simp only [List.length_cons] at hi
          omega
        have hplain2 : classifyTok rest[k] = TokClass.plain := by
          simpa using hplain
        have hpred2 : ∀ (j : Nat) (hj : j < rest.length), j + 1 = k →
            isLocFlagNoVal rest[j] = false := by
          intro j hj hjk
          have hj2 : j + 1 < (t :: rest).length := by
            simp only [List.length_cons]
            omega
          have h3 := hpred (j + 1) hj2 (by omega)
          simpa using h3
        cases hov : optionLike t with
        | true =>
          exact ⟨"argument --location: expected one argument", by simp [parseArgsLoop, hov]⟩
        | false =>
          obtain ⟨m, hm⟩ := ih false t extras hnhr k hk hplain2 (fun _ => rfl) hpred2
          exact ⟨m, by simp [parseArgsLoop, hov, hm]⟩
    | false =>
      cases hcl : classifyTok t with
      | sep =>
        exact ⟨"unrecognized arguments: " ++ joinTokens (extras ++ t :: rest),
          by simp [parseArgsLoop, hcl]⟩
      | ambig =>
        exact ⟨ambigMsg t, by simp [parseArgsLoop, hcl]⟩
      | shortHelp =>
        have h1 : isHelpTok t = false := hnh t (by simp)
        simp [isHelpTok, hcl] at h1
      | locFlag val =>
        cases val with
        | some s =>
          cases i with
          | zero => simp [hcl] at hplain
          | succ k =>
            have hk : k < rest.length := by
              simp only [List.length_cons] at hi
              omega
            have hplain2 : classifyTok rest[k] = TokClass.plain := by
              simpa using hplain
            have hpred2 : ∀ (j : Nat) (hj : j < rest.length), j + 1 = k →
                isLocFlagNoVal rest[j] = false := by
              intro j hj hjk
              have hj2 : j + 1 < (t :: rest).length := by
                simp only [List.length_cons]
                omega
              have h3 := hpred (j + 1) hj2 (by omega)
              simpa using h3
            obtain ⟨m, hm⟩ := ih false s extras hnhr k hk hplain2 (fun _ => rfl) hpred2
            exact ⟨m, by simp [parseArgsLoop, hcl, hm]⟩
        | none =>
          cases i with
          | zero => simp [hcl] at hplain
          | succ k =>
            cases k with
            | zero =>
              have h0 : (0 : Nat) < (t :: rest).length := by simp
              have h1 := hpred 0 h0 rfl
              simp [isLocFlagNoVal, hcl] at h1
            | succ k2 =>
              have hk2 : k2 + 1 < rest.length := by
                simp only [List.length_cons] at hi
                omega
              have hplain2 : classifyTok rest[k2 + 1] = TokClass.plain := by
                simpa using hplain
              have hpred2 : ∀ (j : Nat) (hj : j < rest.length), j + 1 = k2 + 1 →
                  isLocFlagNoVal rest[j] = false := by
                intro j hj hjk
                have hj2 : j + 1 < (t :: rest).length := by
                  simp only [List.length_cons]
                  omega
                have h3 := hpred (j + 1) hj2 (by omega)
                simpa using h3
              obtain ⟨m, hm⟩ :=
                ih true loc extras hnhr (k2 + 1) hk2 hplain2 (by simp) hpred2
              exact ⟨m, by simp [parseArgsLoop, hcl, hm]⟩
      | helpFlag val =>
        cases val with
        | some s =>
          exact ⟨"argument -h/--help: ignored explicit argument \x27" ++ s ++ "\x27",
            by simp [parseArgsLoop, hcl]⟩
        | none =>
          have h1 : isHelpTok t = false := hnh t (by simp)
          simp [isHelpTok, hcl] at h1
      | plain =>
        obtain ⟨m, hm⟩ := loop_err_of_extras rest false loc (extras ++ [t]) hnhr (by simp)
        exact ⟨m, by simp [parseArgsLoop, hcl, hm]⟩

/-- Counterexample to claim C9 as stated: the invocation with the bare
token "Tokyo" followed by "-h" contains a positional (non-flag) argument,
yet it is not an argument-parsing failure: the help action fires first,
the program prints the help text and exits with code 0 rather than
printing usage and exiting non-zero. -/
theorem claim_C9_counterexample :
    classifyTok "Tokyo" = TokClass.plain ∧
    runMain ["Tokyo", "-h"] =
      { stdoutLines := helpLines, stderrLines := [], exitCode := 0 } ∧
    (runMain ["Tokyo", "-h"]).exitCode = 0 := by
  decide

/-- Claim C9 as amended: an invocation containing no help flag in which
some argument is a plain (non-flag) token not consumed as the value of an
immediately preceding valueless --location flag is an argument-parsing
failure: the parser defines no positional arguments, so the program
prints the usage line on standard error and exits with the nonzero code
2. -/
theorem claim_C9_positional_rejected (argv : List String)
    (hnh : ∀ t ∈ argv, isHelpTok t = false)
    (i : Nat) (hi : i < argv.length)
    (hplain : classifyTok argv[i] = TokClass.plain)
    (hpred : ∀ (j : Nat) (hj : j < argv.length), j + 1 = i →
      isLocFlagNoVal argv[j] = false) :
    ∃ m, parseArgs argv = ParseResult.err m ∧
      (runMain argv).exitCode = 2 ∧
      (runMain argv).stderrLines = [usageLine, "get_humidity.py: error: " ++ m] := by
  cases hf : (argv.takeWhile fun t => !(classifyTok t == TokClass.sep)).find?
      (fun t => classifyTok t == TokClass.ambig) with
  | some t0 =>
    have hp : parseArgs argv = ParseResult.err (ambigMsg t0) := by
      simp [parseArgs, hf]
    exact ⟨ambigMsg t0, hp, by simp [runMain, hp], by simp [runMain, hp]⟩
  | none =>
    obtain ⟨m, hm⟩ :=
      loop_err_of_bare argv false defaultLocation [] hnh i hi hplain (fun _ => rfl) hpred
    have hp : parseArgs argv = ParseResult.err m := by
      simp [parseArgs, hf, hm]
    exact ⟨m, hp, by simp [runMain, hp], by simp [runMain, hp]⟩

/-- Witness for the amended claim C9 at the concrete invocation with the
single bare token "Tokyo": a location given without the --location flag
is rejected with usage on standard error and exit code 2. -/
theorem claim_C9_positional_rejected_witness :
    ∃ m, parseArgs ["Tokyo"] = ParseResult.err m ∧
      (runMain ["Tokyo"]).exitCode = 2 ∧
      (runMain ["Tokyo"]).stderrLines = [usageLine, "get_humidity.py: error: " ++ m] :=
  claim_C9_positional_rejected ["Tokyo"] (by decide) 0 (by decide) (by decide)
    (by intro j hj hjk; omega)
